import Mathlib

/-!
Shallow embedding of two model-building components of this repository: the
FusedMBConvBlock layer (keras_cv/layers/fusedmbconv.py) and the grouped
convolution ResNeXt building blocks (keras_cv/models/resnext.py). Layer
calls in the source are declarative graph construction over framework
primitives, so a call is embedded as the structured description of the
graph it wires together, with a shape semantics for the primitives where a
claim needs one. Python floats are embedded as exact rationals, Python
attribute and name lookup as lookup in the explicit sets of names the
source binds.
-/

namespace KerasCV

/-- Shape of a rank 4 feature map (batch, height, width, channels),
channels last as in both source files. -/
structure TensorShape where
  n : ℕ
  h : ℕ
  w : ℕ
  c : ℕ
deriving DecidableEq

/-- Ceiling division: the spatial size a stride s convolution with padding
"same" produces from size a. -/
def ceilDiv (a s : ℕ) : ℕ := (a + s - 1) / s

/-- Output shape of a Conv2D with padding "same": spatial dimensions shrink
by the stride (rounded up) and the channel count becomes the filter
count. -/
def convSameShape (s : TensorShape) (filters strides : ℕ) : TensorShape :=
  ⟨s.n, ceilDiv s.h strides, ceilDiv s.w strides, filters⟩

/-- Truncation toward zero: the value of the Python builtin int() on an
exact rational. -/
def pyInt (q : ℚ) : ℤ := if 0 ≤ q then ⌊q⌋ else ⌈q⌉

/-- BN_AXIS, fusedmbconv.py line 20. -/
def BN_AXIS : ℕ := 3

/-- FusedMBConvBlock instance attributes: FusedMBConvBlock.__init__
(fusedmbconv.py lines 34 to 58) stores each of the nine constructor
parameters on self unchanged. Channel counts, kernel size and strides are
naturals; se_ratio, bn_momentum and survival_probability stand for the
Python floats as exact rationals. -/
structure FusedMBConvBlock where
  input_filters : ℕ
  output_filters : ℕ
  expand_ratio : ℕ
  kernel_size : ℕ
  strides : ℕ
  se_ratio : ℚ
  bn_momentum : ℚ
  activation : String
  survival_probability : ℚ
deriving DecidableEq

/-- Configuration record built by FusedMBConvBlock.get_config
(fusedmbconv.py lines 146 to 160): the nine constructor parameters. -/
structure FusedConfig where
  input_filters : ℕ
  output_filters : ℕ
  expand_ratio : ℕ
  kernel_size : ℕ
  strides : ℕ
  se_ratio : ℚ
  bn_momentum : ℚ
  activation : String
  survival_probability : ℚ
deriving DecidableEq

/-- FusedMBConvBlock.get_config, fusedmbconv.py lines 146 to 160: reads the
nine stored attributes back into the configuration record. -/
def FusedMBConvBlock.get_config (b : FusedMBConvBlock) : FusedConfig :=
  ⟨b.input_filters, b.output_filters, b.expand_ratio, b.kernel_size,
   b.strides, b.se_ratio, b.bn_momentum, b.activation,
   b.survival_probability⟩

/-- Reconstruction from a configuration record: the framework from_config
passes the record entries as keyword arguments to __init__, which stores
them unchanged (fusedmbconv.py lines 49 to 58). -/
def FusedMBConvBlock.from_config (c : FusedConfig) : FusedMBConvBlock :=
  ⟨c.input_filters, c.output_filters, c.expand_ratio, c.kernel_size,
   c.strides, c.se_ratio, c.bn_momentum, c.activation,
   c.survival_probability⟩

/-- Hyperparameters of one Conv2D layer as instantiated inside
FusedMBConvBlock.call: filter count, square kernel size, stride, bias
flag, padding mode, and the optional activation fused into the layer. -/
structure ConvSpec where
  filters : ℕ
  kernel_size : ℕ
  strides : ℕ
  use_bias : Bool
  padding : String
  act : Option String
deriving DecidableEq

/-- The squeeze and excite sub graph of FusedMBConvBlock.call, fusedmbconv.py
lines 88 to 115: global average pool, reshape to se_shape, the se_reduce
convolution, the se_expand convolution, then the elementwise multiply with
the main path. -/
structure SESpec where
  se_shape : ℕ × ℕ × ℕ
  se_reduce : ConvSpec
  se_expand : ConvSpec
deriving DecidableEq

/-- Dropout layer hyperparameters: the rate handed to the framework Dropout
layer, and whether noise_shape = (None, 1, 1, 1) restricts the mask to one
Bernoulli draw per sample. -/
structure DropSpec where
  rate : ℚ
  per_sample : Bool
deriving DecidableEq

/-- Structured description of the layer graph FusedMBConvBlock.call builds
(fusedmbconv.py lines 64 to 144): the optional expansion stage (conv, batch
norm momentum, activation name), the optional squeeze and excite stage, the
projection conv and its batch norm, the optional activation after the
projection batch norm, the optional per sample dropout inside the residual
branch, and whether the residual add with the block input is present. -/
structure CallGraph where
  expansion : Option (ConvSpec × ℚ × String)
  se : Option SESpec
  project_conv : ConvSpec
  project_bn_momentum : ℚ
  project_activation : Option String
  drop : Option DropSpec
  residual_add : Bool
deriving DecidableEq

/-- The graph FusedMBConvBlock.call describes, stage by stage from
fusedmbconv.py lines 64 to 144. The local variable filters of line 66 is
the product input_filters * expand_ratio of the two block attributes (the
source reads the two names without the self qualifier; that unqualified
read is modelled separately by callChecked). The expansion conv exists only
when expand_ratio is not 1; the squeeze and excite stage only when
0 < se_ratio <= 1, its se_reduce conv having max(1, int(input_filters *
se_ratio)) filters; the projection conv uses kernel 1 and stride 1 exactly
when expand_ratio is not 1 and the block kernel_size and strides otherwise;
the activation after the projection batch norm exists exactly when
expand_ratio equals 1; dropout and the residual add follow lines 135 to
143, where the dropout rate passed is survival_probability itself and the
Python truthiness test on it means survival_probability different from
zero. -/
def FusedMBConvBlock.callGraph (b : FusedMBConvBlock) : CallGraph :=
  let filters := b.input_filters * b.expand_ratio
  { expansion :=
      if b.expand_ratio ≠ 1 then
        some (⟨filters, b.kernel_size, b.strides, false, "same", none⟩,
          b.bn_momentum, b.activation)
      else none
    se :=
      if 0 < b.se_ratio ∧ b.se_ratio ≤ 1 then
        some
          { se_shape := if BN_AXIS = 1 then (filters, 1, 1) else (1, 1, filters)
            se_reduce := ⟨max 1 (pyInt ((b.input_filters : ℚ) * b.se_ratio)).toNat,
              1, 1, true, "same", some b.activation⟩
            se_expand := ⟨filters, 1, 1, true, "same", some "sigmoid"⟩ }
      else none
    project_conv :=
      ⟨b.output_filters,
       if b.expand_ratio ≠ 1 then 1 else b.kernel_size,
       if b.expand_ratio ≠ 1 then 1 else b.strides,
       false, "same", none⟩
    project_bn_momentum := b.bn_momentum
    project_activation :=
      if b.expand_ratio = 1 then some b.activation else none
    drop :=
      if (b.strides = 1 ∧ b.input_filters = b.output_filters) ∧
          b.survival_probability ≠ 0 then
        some ⟨b.survival_probability, true⟩
      else none
    residual_add := b.strides == 1 && b.input_filters == b.output_filters }

/-- Output shape of the graph of FusedMBConvBlock.call on an input of shape
inp: the expansion conv (when present) applies the block strides, the
squeeze and excite multiply and every batch norm, activation, dropout and
add preserve shape, and the projection conv sets the final channel count
(fusedmbconv.py lines 117 to 126). -/
def FusedMBConvBlock.outputShape (b : FusedMBConvBlock) (inp : TensorShape) :
    TensorShape :=
  let x := if b.expand_ratio ≠ 1 then
      convSameShape inp (b.input_filters * b.expand_ratio) b.strides
    else inp
  convSameShape x b.output_filters
    (if b.expand_ratio ≠ 1 then 1 else b.strides)

/-- Local variables in scope when FusedMBConvBlock.call evaluates its first
statement at fusedmbconv.py line 66: only the parameters self and inputs
are bound at that point. -/
def callLocalNames : List String := ["self", "inputs"]

/-- Module level names of fusedmbconv.py (imports and definitions, lines 16
to 33), the enclosing scope of FusedMBConvBlock.call. -/
def fusedModuleNames : List String :=
  ["tf", "backend", "layers", "BN_AXIS", "CONV_KERNEL_INITIALIZER",
   "FusedMBConvBlock"]

/-- Python name resolution inside FusedMBConvBlock.call: a bare name that
is neither a local, nor a module level name, nor (for the names involved
here) a builtin, raises NameError when read. -/
def resolveCallName (s : String) : Except String Unit :=
  if s ∈ callLocalNames ∨ s ∈ fusedModuleNames then Except.ok ()
  else Except.error ("NameError: name " ++ s ++ " is not defined")

/-- FusedMBConvBlock.call with line 66 read exactly as written in the
source: the statement filters = input_filters * expand_ratio reads the bare
names input_filters and expand_ratio without the self qualifier, so both
names are resolved before any layer of the graph can be built. -/
def FusedMBConvBlock.callChecked (b : FusedMBConvBlock) :
    Except String CallGraph := do
  let _ ← resolveCallName "input_filters"
  let _ ← resolveCallName "expand_ratio"
  Except.ok b.callGraph

/-- Framework Dropout semantics for one mask unit in training mode: the
unit is zeroed when the Bernoulli draw (passed in as the dropped flag)
falls in the drop event, and a surviving unit is rescaled by
1 / (1 - rate). -/
def dropoutTraining (rate : ℚ) (dropped : Bool) (x : ℚ) : ℚ :=
  if dropped then 0 else x / (1 - rate)

/-- Probability with which the framework Dropout layer zeroes a mask unit
in training mode: exactly its rate argument. -/
def dropProbability (d : DropSpec) : ℚ := d.rate

/-- Framework Dropout at inference: the identity. -/
def dropoutInference (x : ℚ) : ℚ := x

/-- GroupConv2D instance attributes as GroupConv2D.__init__ would complete
them (resnext.py lines 19 to 30); the groups field is the value the loop
header at line 27 needs but never finds stored. -/
structure GroupConv2D where
  kernel_size : ℕ × ℕ
  strides : ℕ × ℕ
  padding : String
  group_in_num : ℕ
  group_out_num : ℕ
  groups : ℕ
deriving DecidableEq

/-- Arguments of GroupConv2D.__init__, resnext.py line 19. -/
structure GroupConv2DArgs where
  input_channels : ℕ
  output_channels : ℕ
  groups : ℕ
  kernel_size : ℕ × ℕ
  strides : ℕ × ℕ
  padding : String
deriving DecidableEq

/-- Attributes assigned on self by GroupConv2D.__init__ before the loop
header at resnext.py line 27 executes: lines 21 to 26 in source order. -/
def groupConvAssigned : List String :=
  ["kernel_size", "strides", "padding", "group_in_num", "group_out_num",
   "conv_list"]

/-- Attributes a freshly initialized framework base Layer itself provides.
groups is not among them, and GroupConv2D defines no class attribute of
that name. -/
def kerasLayerAttrs : List String := ["name", "trainable", "dtype", "built"]

/-- Python attribute lookup for self.groups at resnext.py line 27: an
attribute neither assigned in __init__ nor provided by the base Layer
raises AttributeError when read. -/
def readSelfAttr (s : String) (value : ℕ) : Except String ℕ :=
  if s ∈ groupConvAssigned ∨ s ∈ kerasLayerAttrs then Except.ok value
  else Except.error ("AttributeError: " ++ s)

/-- Per group channel counts computed at resnext.py lines 24 and 25 by
floor division, with no divisibility check on either channel count. -/
def groupChannelCounts (a : GroupConv2DArgs) : ℕ × ℕ :=
  (a.input_channels / a.groups, a.output_channels / a.groups)

/-- GroupConv2D.__init__ (resnext.py lines 19 to 30): lines 21 to 26 assign
kernel_size, strides, padding, group_in_num, group_out_num and an empty
conv_list, then the loop header for i in range(self.groups) at line 27
reads the never assigned attribute groups. -/
def GroupConv2D.init (a : GroupConv2DArgs) : Except String GroupConv2D := do
  let counts := groupChannelCounts a
  let g ← readSelfAttr "groups" a.groups
  Except.ok ⟨a.kernel_size, a.strides, a.padding, counts.1, counts.2, g⟩

/-- GroupConv2D.call on the channel dimension (resnext.py lines 32 to 38):
the input feature map is its list of channels, conv i is the framework
Conv2D owned by group i (an arbitrary function from a channel list to the
group output channels), the slice inputs[:, :, :, i*g : (i+1)*g] is
take and drop on the channel list, and tf.concat(..., axis=-1) joins the
per group outputs in loop order. -/
def groupConvCall {α β : Type} (groups group_in_num : ℕ)
    (conv : ℕ → List α → List β) (inputs : List α) : List β :=
  ((List.range groups).map
    (fun i => conv i ((inputs.drop (i * group_in_num)).take group_in_num))).flatten

/-- One primitive applied by the resnext.py building blocks. -/
inductive RxOp where
  | conv2d (filters : ℕ) (kernel_size : ℕ × ℕ) (strides : ℕ) (padding : String)
  | batchNorm
  | relu
deriving DecidableEq

/-- ConvBlock (resnext.py lines 41 to 45) as the sequence of primitives it
applies to its input: Conv2D, then BatchNormalization, then tf.nn.relu. -/
def ConvBlock (filters : ℕ) (kernel_size : ℕ × ℕ) (strides : ℕ)
    (padding : String) : List RxOp :=
  [RxOp.conv2d filters kernel_size strides padding, RxOp.batchNorm, RxOp.relu]

/-- The shortcut branch of ResNeXt_BottleNeck, resnext.py line 54: ConvBlock
applied to the original inputs with filters = 2 * filters, kernel (1, 1),
the block strides and padding "same". -/
def ResNeXt_shortcutOps (filters strides : ℕ) : List RxOp :=
  ConvBlock (2 * filters) (1, 1) strides "same"

/-- Shape semantics of ConvBlock: batch norm and relu preserve shape, so
only the convolution with padding "same" acts. -/
def convBlockShape (s : TensorShape) (filters strides : ℕ) : TensorShape :=
  convSameShape s filters strides

/-- ResNeXt_BottleNeck (resnext.py lines 47 to 56) at the level of shapes
and construction effects: the first ConvBlock runs, then the GroupConv2D
layer is constructed (line 49) before it can be applied to x; the grouped
convolution, the second and third ConvBlock, the shortcut and the final
elementwise add follow in source order. -/
def ResNeXt_BottleNeck (inputs : TensorShape) (filters strides groups : ℕ) :
    Except String TensorShape := do
  let x := convBlockShape inputs filters 1
  let gc ← GroupConv2D.init
    ⟨filters, filters, groups, (3, 3), (strides, strides), "same"⟩
  let x := convSameShape x (gc.groups * gc.group_out_num) strides
  let x := convBlockShape x (2 * filters) 1
  let shortcut := convBlockShape inputs (2 * filters) strides
  if x = shortcut then Except.ok x
  else Except.error "shape mismatch in add"

/-- Concrete per group convolution used to instantiate the grouped
convolution theorem at a concrete input: group i maps its channel slice to
the single channel 10 * i + sum of the slice. -/
def convW : ℕ → List ℕ → List ℕ := fun i s => [10 * i + s.sum]

/-- Length of the flattening of a list of lists of uniform length k. -/
theorem flatten_length_uniform {β : Type} (k : ℕ) :
    ∀ L : List (List β), (∀ l ∈ L, l.length = k) →
      L.flatten.length = L.length * k
  | [], _ => by simp
  | l :: t, h => by
    have hl : l.length = k := h l (List.mem_cons_self _ _)
    have ht := flatten_length_uniform k t
      (fun x hx => h x (List.mem_cons_of_mem _ hx))
    simp only [List.flatten_cons, List.length_append, hl, ht, List.length_cons]
    ring

/-- Extraction of the i-th block from the flattening of a list of lists of
uniform length k. -/
theorem flatten_extract_uniform {β : Type} (k : ℕ) :
    ∀ (L : List (List β)) (i : ℕ), i < L.length → (∀ l ∈ L, l.length = k) →
      (L.flatten.drop (i * k)).take k = L.getD i []
  | [], i, hi, _ => absurd hi (by simp)
  | l :: t, 0, _, h => by
    have hl : l.length = k := h l (List.mem_cons_self _ _)
    simp [List.take_left' hl]
  | l :: t, i + 1, hi, h => by
    have hl : l.length = k := h l (List.mem_cons_self _ _)
    have ht := flatten_extract_uniform k t i (by simpa using hi)
      (fun x hx => h x (List.mem_cons_of_mem _ hx))
    have hdrop : ((l :: t).flatten).drop ((i + 1) * k) = t.flatten.drop (i * k) := by
      rw [List.flatten_cons, Nat.succ_mul, Nat.add_comm, ← List.drop_drop,
        List.drop_left' hl]
    rw [hdrop, ht]
    rfl

/-- C1: the claim says a validly constructed FusedMBConvBlock raises no
exception when called; in fact every call fails before building any layer,
because the first statement of call (fusedmbconv.py line 66) reads the bare
names input_filters and expand_ratio, which are bound neither locally nor
at module level, so Python raises NameError. -/
theorem C1_every_call_raises_NameError (b : FusedMBConvBlock) :
    b.callChecked =
      Except.error "NameError: name input_filters is not defined" := by
  rfl

/-- C2: every GroupConv2D construction raises an attribute error, because
the loop header at resnext.py line 27 reads the never assigned attribute
self.groups; consequently no instance is ever constructed, and every
application of ResNeXt_BottleNeck fails when it reaches the grouped
convolution stage. -/
theorem C2_groupconv_init_always_fails :
    (∀ a : GroupConv2DArgs,
        GroupConv2D.init a = Except.error "AttributeError: groups") ∧
    (∀ (inputs : TensorShape) (filters strides groups : ℕ),
        ResNeXt_BottleNeck inputs filters strides groups =
          Except.error "AttributeError: groups") := by
  refine ⟨fun a => rfl, fun inputs filters strides groups => rfl⟩

/-- C3: the claim says the residual branch is zeroed with probability
1 - survival_probability in training; the code passes survival_probability
itself as the Dropout rate (fusedmbconv.py lines 137 to 142), so at
survival_probability = 4/5 the branch is zeroed with probability 4/5, not
1/5, and a surviving sample is rescaled by 1 / (1 - 4/5) = 5 rather than
passed through unchanged. -/
theorem C3_drop_rate_is_survival_probability :
    (FusedMBConvBlock.callGraph ⟨4, 4, 1, 3, 1, 0, 9/10, "swish", 4/5⟩).drop =
        some ⟨4/5, true⟩ ∧
      dropProbability ⟨4/5, true⟩ = 4/5 ∧
      (4/5 : ℚ) ≠ 1 - 4/5 ∧
      dropoutTraining (4/5) false 1 = 5 := by
  refine ⟨?_, rfl, by norm_num, by norm_num [dropoutTraining]⟩
  norm_num [FusedMBConvBlock.callGraph]

/-- C4: at input_channels = 7, output_channels = 8, groups = 4 the
construction of GroupConv2D does not fail with a configuration error about
divisibility: resnext.py lines 24 and 25 silently floor divide (the per
group input count becomes 1, dropping the remainder of 7 / 4), and the only
failure is the AttributeError on groups, the same one every argument
combination hits, including the evenly divisible ones. -/
theorem C4_no_divisibility_check :
    groupChannelCounts ⟨7, 8, 4, (3, 3), (1, 1), "valid"⟩ = (1, 2) ∧
      ¬ (4 ∣ 7) ∧
      GroupConv2D.init ⟨7, 8, 4, (3, 3), (1, 1), "valid"⟩ =
        Except.error "AttributeError: groups" ∧
      GroupConv2D.init ⟨8, 8, 4, (3, 3), (1, 1), "valid"⟩ =
        Except.error "AttributeError: groups" := by
  refine ⟨rfl, by decide, rfl, rfl⟩

/-- C5 counterexample: at filters = 32, strides = 2 the shortcut branch of
ResNeXt_BottleNeck is not a convolution followed by batch normalization
alone; ConvBlock is reused for the shortcut (resnext.py line 54), so a ReLU
activation is applied after the normalization. -/
theorem C5_shortcut_has_relu :
    ResNeXt_shortcutOps 32 2 ≠
        [RxOp.conv2d 64 (1, 1) 2 "same", RxOp.batchNorm] ∧
      RxOp.relu ∈ ResNeXt_shortcutOps 32 2 := by
  decide

/-- C5 amended: the shortcut branch applies a 1 by 1 convolution projecting
the original input to 2 * filters channels with the same strides, followed
by batch normalization, followed by a ReLU activation (the trailing
activation of the reused ConvBlock helper). -/
theorem C5_shortcut_ops (filters strides : ℕ) :
    ResNeXt_shortcutOps filters strides =
      [RxOp.conv2d (2 * filters) (1, 1) strides "same", RxOp.batchNorm,
       RxOp.relu] := rfl

/-- C6 counterexample: at input_filters = 3, se_ratio = 9/10 the se_reduce
convolution has max(1, int(3 * 9/10)) = 2 output channels, while the
claimed arithmetic rounding would give max(1, round(27/10)) = 3. -/
theorem C6_int_truncates_not_rounds :
    (FusedMBConvBlock.callGraph ⟨3, 3, 1, 3, 1, 9/10, 9/10, "swish", 0⟩).se =
        some { se_shape := (1, 1, 3)
               se_reduce := ⟨2, 1, 1, true, "same", some "swish"⟩
               se_expand := ⟨3, 1, 1, true, "same", some "sigmoid"⟩ } ∧
      max 1 (round ((3 : ℚ) * (9/10))).toNat = 3 ∧ (2 : ℕ) ≠ 3 := by
  refine ⟨?_, ?_, by decide⟩
  · norm_num [FusedMBConvBlock.callGraph, pyInt, BN_AXIS]
    decide
  · norm_num [round_eq]
    decide

/-- C6 amended: whenever 0 < se_ratio <= 1, the squeeze and excite
reduction convolution is a 1 by 1 convolution with the block activation and
exactly max(1, ⌊input_filters * se_ratio⌋) output channels: int() truncates
toward zero, which on this nonnegative product is the floor, not arithmetic
rounding. -/
theorem C6_reduce_filters (b : FusedMBConvBlock) (h0 : 0 < b.se_ratio)
    (h1 : b.se_ratio ≤ 1) :
    Option.map
        (fun s => (s.se_reduce.filters, s.se_reduce.kernel_size, s.se_reduce.act))
        b.callGraph.se =
      some (max 1 (⌊(b.input_filters : ℚ) * b.se_ratio⌋).toNat, 1,
        some b.activation) := by
  have hc : 0 < b.se_ratio ∧ b.se_ratio ≤ 1 := ⟨h0, h1⟩
  have hnn : 0 ≤ (b.input_filters : ℚ) * b.se_ratio :=
    mul_nonneg (Nat.cast_nonneg _) (le_of_lt h0)
  simp [FusedMBConvBlock.callGraph, hc, pyInt, hnn]

/-- Witness for C6_reduce_filters at input_filters = 5, se_ratio = 1/2. -/
theorem C6_reduce_filters_witness :
    Option.map
        (fun s => (s.se_reduce.filters, s.se_reduce.kernel_size, s.se_reduce.act))
        (FusedMBConvBlock.callGraph ⟨5, 5, 1, 3, 1, 1/2, 9/10, "swish", 0⟩).se =
      some (max 1 (⌊(5 : ℚ) * (1/2)⌋).toNat, 1, some "swish") :=
  C6_reduce_filters ⟨5, 5, 1, 3, 1, 1/2, 9/10, "swish", 0⟩
    (by norm_num) (by norm_num)

/-- C7: the output of GroupConv2D.call is the concatenation, in increasing
group index order, of each group convolution applied to its contiguous
input channel slice: the output channel block [i*gout, (i+1)*gout) equals
conv i applied to input channels [i*gin, (i+1)*gin), and the total output
channel count is groups * gout. -/
theorem C7_groupconv_call_slices {α β : Type} (groups gin gout : ℕ)
    (conv : ℕ → List α → List β) (inputs : List α)
    (hlen : ∀ i ∈ List.range groups,
      (conv i ((inputs.drop (i * gin)).take gin)).length = gout) :
    (groupConvCall groups gin conv inputs).length = groups * gout ∧
    ∀ i ∈ List.range groups,
      ((groupConvCall groups gin conv inputs).drop (i * gout)).take gout =
        conv i ((inputs.drop (i * gin)).take gin) := by
  have hml : ∀ l ∈ (List.range groups).map
      (fun j => conv j ((inputs.drop (j * gin)).take gin)), l.length = gout := by
    intro l hl
    rcases List.mem_map.mp hl with ⟨i, hi, rfl⟩
    exact hlen i hi
  constructor
  · have hfl := flatten_length_uniform gout
      ((List.range groups).map fun j => conv j ((inputs.drop (j * gin)).take gin))
      hml
    simpa [groupConvCall] using hfl
  · intro i hi
    have hi' : i < groups := List.mem_range.mp hi
    have hx := flatten_extract_uniform gout
      ((List.range groups).map fun j => conv j ((inputs.drop (j * gin)).take gin))
      i (by simpa using hi') hml
    have hgetD : ((List.range groups).map
        (fun j => conv j ((inputs.drop (j * gin)).take gin))).getD i [] =
        conv i ((inputs.drop (i * gin)).take gin) := by
      rw [List.getD_eq_getElem _ _ (by simpa using hi')]
      simp
    rw [groupConvCall, hx, hgetD]

/-- Witness for C7_groupconv_call_slices: two groups of two input channels
each, one output channel per group, on the concrete input [1, 2, 3, 4]. -/
theorem C7_groupconv_call_slices_witness :
    (groupConvCall 2 2 convW [1, 2, 3, 4]).length = 2 * 1 ∧
    ∀ i ∈ List.range 2,
      ((groupConvCall 2 2 convW [1, 2, 3, 4]).drop (i * 1)).take 1 =
        convW i (([1, 2, 3, 4].drop (i * 2)).take 2) :=
  C7_groupconv_call_slices 2 2 1 convW [1, 2, 3, 4] (by decide)

/-- C8: the residual add with the block input is present exactly when
strides = 1 and input_filters = output_filters, and the block output always
has exactly output_filters channels (in particular, in the non residual
case the returned tensor is the projected output with output_filters
channels). -/
theorem C8_residual_iff (b : FusedMBConvBlock) (inp : TensorShape) :
    (b.callGraph.residual_add = true ↔
        (b.strides = 1 ∧ b.input_filters = b.output_filters)) ∧
      (b.outputShape inp).c = b.output_filters := by
  constructor
  · simp [FusedMBConvBlock.callGraph]
  · rfl

/-- C9: the projection convolution uses kernel size 1 and stride 1 exactly
when expand_ratio is different from 1, and the block kernel_size and
strides when expand_ratio equals 1; the activation after the projection
batch normalization is present exactly when expand_ratio equals 1; and the
projection always produces output_filters channels. -/
theorem C9_projection_params (b : FusedMBConvBlock) :
    b.callGraph.project_conv.filters = b.output_filters ∧
    b.callGraph.project_conv.kernel_size =
      (if b.expand_ratio = 1 then b.kernel_size else 1) ∧
    b.callGraph.project_conv.strides =
      (if b.expand_ratio = 1 then b.strides else 1) ∧
    b.callGraph.project_activation =
      (if b.expand_ratio = 1 then some b.activation else none) := by
  by_cases h : b.expand_ratio = 1 <;>
    simp [FusedMBConvBlock.callGraph, h]

/-- C10: extracting the configuration record of a FusedMBConvBlock and
constructing a fresh block from that record yields a block whose
configuration record is identical to the original: all nine constructor
parameters round trip unchanged. -/
theorem C10_config_roundtrip (b : FusedMBConvBlock) :
    FusedMBConvBlock.get_config
        (FusedMBConvBlock.from_config (FusedMBConvBlock.get_config b)) =
      FusedMBConvBlock.get_config b := rfl

end KerasCV
